import Mathlib

/-!
Shallow embedding of `src/main.py` of sailer-messenger-api: an in-memory
chat backend with chats, messages, read receipts, presence, WebSocket
fan-out and a scripted bot agent.

Modelling conventions:
* Python dicts become insertion-ordered association lists (`Dict`) with
  Python's semantics: lookup finds the first matching key, assignment
  updates in place or appends, `del` removes the entry.
* `str(uuid.uuid4())` is abstracted as a caller-supplied message/chat id;
  `datetime.utcnow().isoformat()` as a caller-supplied `Time` (a `Nat`).
  Theorems that need uniqueness of generated ids or monotonicity of the
  clock take them as hypotheses, since those are properties of the id and
  clock sources, not of this code.
* A WebSocket connection is a `Conn`; `healthy = true` means `send_text`
  succeeds, `healthy = false` means it raises (the `except` branch of
  `broadcast_to_chat`).
* Internal helpers (`_send_message`, `_update_presence`, `_mark_chat_read`)
  dereference `chats[chat_id]` without a check; in Python a missing chat
  raises `KeyError`. They therefore return `Option`, with `none` for the
  paths on which the source would raise.
* The route `mark_chat_read` passes the whole request object `req` (not
  `req.user_id`) to `_mark_chat_read`, which uses its argument as a dict
  key. The receipt-key type `RRKey` records the two call shapes that occur
  in the source: a plain user-id string, or the full `MarkReadRequest`.
-/

abbrev UserId := String
abbrev ChatId := String
abbrev MsgId := Nat
abbrev Time := Nat

def BOT_USER_ID : UserId := "bot_user"

inductive MsgType
  | text
  | image
  | audio
deriving DecidableEq, Repr

inductive PresStatus
  | online
  | offline
  | typing
deriving DecidableEq, Repr

/-- An insertion-ordered association list, modelling a Python `dict`. -/
abbrev Dict (K V : Type) := List (K × V)

/-- `d[k]` lookup: first entry with key `k` (keys are unique in practice). -/
def dictGet {K V : Type} [DecidableEq K] (d : Dict K V) (k : K) : Option V :=
  match d with
  | [] => none
  | (k', v) :: rest => if k' = k then some v else dictGet rest k

/-- `d[k] = v`: update in place if present, else append (Python dict order). -/
def dictSet {K V : Type} [DecidableEq K] (d : Dict K V) (k : K) (v : V) : Dict K V :=
  match d with
  | [] => [(k, v)]
  | (k', v') :: rest => if k' = k then (k, v) :: rest else (k', v') :: dictSet rest k v

/-- `del d[k]`: drop the entry with key `k`. -/
def dictErase {K V : Type} [DecidableEq K] (d : Dict K V) (k : K) : Dict K V :=
  match d with
  | [] => []
  | (k', v') :: rest => if k' = k then rest else (k', v') :: dictErase rest k

def dictKeys {K V : Type} (d : Dict K V) : List K := d.map Prod.fst

/-- `{k: f k for k in ks}`: a Python dict comprehension. -/
def dictComp {K V : Type} [DecidableEq K] (ks : List K) (f : K → V) : Dict K V :=
  ks.foldl (fun d k => dictSet d k (f k)) []

/-- A message record as stored in `chats[chat_id]["messages"]`. -/
structure Message where
  id : MsgId
  user_id : UserId
  type : MsgType
  content : String
  timestamp : Time
deriving DecidableEq, Repr

/-- A presence record `{"status": ..., "last_seen": ...}`. -/
structure PresenceRec where
  status : PresStatus
  last_seen : Time
deriving DecidableEq, Repr

/-- Body of `POST /chats/{chat_id}/read`. -/
structure MarkReadRequest where
  user_id : UserId
deriving DecidableEq, Repr

/-- The key type under which `_mark_chat_read` stores a read receipt: the
source passes either a user-id string (bot path) or, in the REST route, the
whole `MarkReadRequest` object. -/
inductive RRKey
  | user (u : UserId)
  | reqObj (r : MarkReadRequest)
deriving DecidableEq, Repr

structure Chat where
  participants : List UserId
  messages : List Message
  read_receipts : Dict RRKey (Option MsgId)
  presence : Dict UserId PresenceRec
deriving DecidableEq, Repr

/-- A WebSocket connection; `healthy` says whether `send_text` succeeds. -/
structure Conn where
  id : Nat
  healthy : Bool
deriving DecidableEq, Repr

/-- The module-level mutable state: `chats` and `chat_connections`. -/
structure Store where
  chats : Dict ChatId Chat
  chat_connections : Dict ChatId (List Conn)
deriving DecidableEq, Repr

def emptyStore : Store := ⟨[], []⟩

/-- Response of `_mark_chat_read`, also the `chat_read` event payload. -/
structure MarkReadResponse where
  chat_id : ChatId
  user_id : RRKey
  last_read_message_id : Option MsgId
deriving DecidableEq, Repr

/-- A broadcast event `{"event": ..., "data": ...}` (serialization of the
payload to JSON is abstracted). -/
inductive Event
  | message_received (m : Message)
  | presence_updated (user_id : UserId) (status : PresStatus) (last_seen : Time)
  | chat_read (resp : MarkReadResponse)
deriving DecidableEq, Repr

/-- The wire-level event name of an event. -/
def eventName : Event → String
  | .message_received _ => "message_received"
  | .presence_updated _ _ _ => "presence_updated"
  | .chat_read _ => "chat_read"

inductive ApiError
  | notFound
  | forbidden
  | validation
deriving DecidableEq, Repr

structure CreateChatRequest where
  participants : List UserId
deriving DecidableEq, Repr

structure SendMessageRequest where
  user_id : UserId
  type : MsgType
  content : String
deriving DecidableEq, Repr

structure PresenceUpdateRequest where
  user_id : UserId
  status : PresStatus
deriving DecidableEq, Repr

/-- One entry of the bot's canned-response catalog. -/
structure BotResponse where
  type : MsgType
  content : String
deriving DecidableEq, Repr

/-- `broadcast_to_chat`: send the event to every connection subscribed to the
chat; collect the connections whose send raised in `to_remove`, remove each
of them (`list.remove`, i.e. first occurrence), and drop the chat's entry if
no connection is left. Returns the new state and the connections that
received the event. Failures are never surfaced to the caller. -/
def broadcast_to_chat (st : Store) (chat_id : ChatId) (_e : Event) :
    Store × List Conn :=
  match dictGet st.chat_connections chat_id with
  | none => (st, [])
  | some conns =>
    let delivered := conns.filter (fun c => c.healthy)
    let to_remove := conns.filter (fun c => !c.healthy)
    let remaining := to_remove.foldl (fun acc ws => acc.erase ws) conns
    let cm :=
      if remaining.isEmpty then dictErase st.chat_connections chat_id
      else dictSet st.chat_connections chat_id remaining
    ({ st with chat_connections := cm }, delivered)

/-- The subscription half of `websocket_endpoint`: accept the connection and
append it to `chat_connections[chat_id]`, creating the list if absent. There
is no check that `chat_id` names an existing chat. -/
def subscribe (st : Store) (chat_id : ChatId) (ws : Conn) : Store :=
  let conns :=
    match dictGet st.chat_connections chat_id with
    | none => []
    | some l => l
  { st with chat_connections := dictSet st.chat_connections chat_id (conns ++ [ws]) }

/-- The disconnect half of `websocket_endpoint`: remove the connection and
drop the chat's entry if it became empty. -/
def unsubscribe (st : Store) (chat_id : ChatId) (ws : Conn) : Store :=
  match dictGet st.chat_connections chat_id with
  | none => st
  | some conns =>
    let conns' := conns.erase ws
    let cm :=
      if conns'.isEmpty then dictErase st.chat_connections chat_id
      else dictSet st.chat_connections chat_id conns'
    { st with chat_connections := cm }

/-- `POST /chats` (`create_chat`): appends the bot id, initializes an empty
log, per-human receipts to `None` and per-participant presence to offline;
returns `{chat_id, participants}` echoing only the request's list. The
source performs no validation of the participant list. -/
def create_chat (st : Store) (chat_id : ChatId) (now : Time)
    (req : CreateChatRequest) : Store × ChatId × List UserId :=
  let participants := req.participants ++ [BOT_USER_ID]
  let chat : Chat :=
    { participants := participants
      messages := []
      read_receipts := dictComp (req.participants.map RRKey.user) (fun _ => none)
      presence := dictComp participants (fun _ => ⟨PresStatus.offline, now⟩) }
  ({ st with chats := dictSet st.chats chat_id chat }, chat_id, req.participants)

/-- `GET /chats/{chat_id}/messages`. -/
def get_messages (st : Store) (chat_id : ChatId) : Except ApiError (List Message) :=
  match dictGet st.chats chat_id with
  | none => .error .notFound
  | some chat => .ok chat.messages

/-- `_send_message`: build the message record, append it to the chat's log
and broadcast `message_received`. `none` models the `KeyError` the source
raises when the chat does not exist. -/
def _send_message (st : Store) (chat_id : ChatId) (user_id : UserId)
    (type : MsgType) (content : String) (msg_id : MsgId) (now : Time) :
    Option (Store × Event × List Conn) :=
  match dictGet st.chats chat_id with
  | none => none
  | some chat =>
    let message : Message :=
      { id := msg_id, user_id := user_id, type := type
        content := content, timestamp := now }
    let chat' := { chat with messages := chat.messages ++ [message] }
    let st' := { st with chats := dictSet st.chats chat_id chat' }
    let ev := Event.message_received message
    let r := broadcast_to_chat st' chat_id ev
    some (r.1, ev, r.2)

/-- `POST /chats/{chat_id}/messages` (`send_message`): 404 if the chat is
unknown, 403 if the sender is not a participant; otherwise append via
`_send_message` and schedule one bot activation. Returns the (possibly
unchanged) store, the HTTP outcome, and whether a bot task was scheduled. -/
def send_message (st : Store) (chat_id : ChatId) (req : SendMessageRequest)
    (msg_id : MsgId) (now : Time) :
    Store × Except ApiError String × Bool :=
  match dictGet st.chats chat_id with
  | none => (st, .error .notFound, false)
  | some chat =>
    if req.user_id ∈ chat.participants then
      match _send_message st chat_id req.user_id req.type req.content msg_id now with
      | some (st', _, _) => (st', .ok "message_sent", true)
      | none => (st, .error .notFound, false)
    else (st, .error .forbidden, false)

/-- `_update_presence`: on `offline`, store `{offline, now}`; otherwise keep
the previously stored `last_seen`. Broadcasts `presence_updated` with the
resulting record. `none` models the source's `KeyError` on a missing chat,
or on a missing presence record in the non-offline branch. -/
def _update_presence (st : Store) (chat_id : ChatId) (user_id : UserId)
    (status : PresStatus) (now : Time) :
    Option (Store × Event × List Conn) :=
  match dictGet st.chats chat_id with
  | none => none
  | some chat =>
    if status = PresStatus.offline then
      let chat' :=
        { chat with presence := dictSet chat.presence user_id ⟨PresStatus.offline, now⟩ }
      let st' := { st with chats := dictSet st.chats chat_id chat' }
      let ev := Event.presence_updated user_id PresStatus.offline now
      let r := broadcast_to_chat st' chat_id ev
      some (r.1, ev, r.2)
    else
      match dictGet chat.presence user_id with
      | none => none
      | some old =>
        let chat' :=
          { chat with presence := dictSet chat.presence user_id ⟨status, old.last_seen⟩ }
        let st' := { st with chats := dictSet st.chats chat_id chat' }
        let ev := Event.presence_updated user_id status old.last_seen
        let r := broadcast_to_chat st' chat_id ev
        some (r.1, ev, r.2)

/-- `POST /chats/{chat_id}/presence` (`update_presence`). -/
def update_presence (st : Store) (chat_id : ChatId)
    (req : PresenceUpdateRequest) (now : Time) :
    Store × Except ApiError (ChatId × UserId × PresStatus) :=
  match dictGet st.chats chat_id with
  | none => (st, .error .notFound)
  | some chat =>
    if req.user_id ∈ chat.participants then
      match _update_presence st chat_id req.user_id req.status now with
      | some (st', _, _) => (st', .ok (chat_id, req.user_id, req.status))
      | none => (st, .error .notFound)
    else (st, .error .forbidden)

/-- `_mark_chat_read`: set the receipt stored under key `k` to the id of the
chat's last message (`None` on an empty log), broadcast `chat_read` with the
response payload. The source uses its `user_id` argument as the dict key,
and the route passes the whole request object there. -/
def _mark_chat_read (st : Store) (chat_id : ChatId) (k : RRKey) :
    Option (Store × MarkReadResponse × Event × List Conn) :=
  match dictGet st.chats chat_id with
  | none => none
  | some chat =>
    let last_msg_id : Option MsgId := chat.messages.getLast?.map (fun m => m.id)
    let chat' := { chat with read_receipts := dictSet chat.read_receipts k last_msg_id }
    let st' := { st with chats := dictSet st.chats chat_id chat' }
    let resp : MarkReadResponse := ⟨chat_id, k, last_msg_id⟩
    let ev := Event.chat_read resp
    let r := broadcast_to_chat st' chat_id ev
    some (r.1, resp, ev, r.2)

/-- `POST /chats/{chat_id}/read` (`mark_chat_read`): validates the chat and
that `req.user_id` is a participant, then calls `_mark_chat_read(chat_id, req)`
— passing the request object itself, not `req.user_id`. -/
def mark_chat_read (st : Store) (chat_id : ChatId) (req : MarkReadRequest) :
    Store × Except ApiError MarkReadResponse :=
  match dictGet st.chats chat_id with
  | none => (st, .error .notFound)
  | some chat =>
    if req.user_id ∈ chat.participants then
      match _mark_chat_read st chat_id (RRKey.reqObj req) with
      | some (st', resp, _, _) => (st', .ok resp)
      | none => (st, .error .notFound)
    else (st, .error .forbidden)

/-- `GET /chats/{chat_id}/read`. -/
def get_chat_read (st : Store) (chat_id : ChatId) :
    Except ApiError (ChatId × Dict RRKey (Option MsgId)) :=
  match dictGet st.chats chat_id with
  | none => .error .notFound
  | some chat => .ok (chat_id, chat.read_receipts)
/-- The fixed catalog `predefined_responses` of canned bot replies. -/
def predefined_responses : List BotResponse := [
  BotResponse.mk MsgType.text "Interesting...",
  BotResponse.mk MsgType.text "Tell me more!",
  BotResponse.mk MsgType.text "Got it!",
  BotResponse.mk MsgType.image "http://example.com/image.png",
  BotResponse.mk MsgType.audio "http://example.com/audio.mp3",
  BotResponse.mk MsgType.text "Can you elaborate on that?",
  BotResponse.mk MsgType.text "I see!",
  BotResponse.mk MsgType.text "That makes sense.",
  BotResponse.mk MsgType.text "Why do you think that?",
  BotResponse.mk MsgType.text "I\x27m not sure I follow.",
  BotResponse.mk MsgType.text "Sounds good!",
  BotResponse.mk MsgType.text "Let\x27s explore that further.",
  BotResponse.mk MsgType.text "I\x27m listening...",
  BotResponse.mk MsgType.text "Fascinating!",
  BotResponse.mk MsgType.text "That\x27s an interesting perspective.",
  BotResponse.mk MsgType.text "What do you mean by that?",
  BotResponse.mk MsgType.text "Absolutely!",
  BotResponse.mk MsgType.text "I understand.",
  BotResponse.mk MsgType.text "What happened next?",
  BotResponse.mk MsgType.text "Thanks for sharing!",
  BotResponse.mk MsgType.text "How do you feel about that?",
  BotResponse.mk MsgType.text "Could you give an example?",
  BotResponse.mk MsgType.text "That\x27s one way to look at it.",
  BotResponse.mk MsgType.text "I\x27m curious to know more.",
  BotResponse.mk MsgType.text "I hadn\x27t thought of it that way.",
  BotResponse.mk MsgType.text "Let\x27s dive deeper into this.",
  BotResponse.mk MsgType.text "That\x27s worth considering.",
  BotResponse.mk MsgType.text "Do you agree?",
  BotResponse.mk MsgType.text "Tell me why that\x27s important.",
  BotResponse.mk MsgType.text "Thanks for pointing that out.",
  BotResponse.mk MsgType.text "What are your thoughts on this?",
  BotResponse.mk MsgType.text "That\x27s a valid point.",
  BotResponse.mk MsgType.text "I\x27m intrigued!",
  BotResponse.mk MsgType.text "What do you suggest?",
  BotResponse.mk MsgType.text "Let\x27s think this through together.",
  BotResponse.mk MsgType.text "That\x27s an interesting question.",
  BotResponse.mk MsgType.text "I\x27d love to hear more.",
  BotResponse.mk MsgType.text "How did that happen?",
  BotResponse.mk MsgType.text "That\x27s quite insightful!",
  BotResponse.mk MsgType.text "What\x27s your take on this?",
  BotResponse.mk MsgType.text "That\x27s a great observation! It really highlights an important point that we can explore further. Could you explain your reasoning behind it in more detail?",
  BotResponse.mk MsgType.text "I appreciate your perspective on this. It opens up an interesting discussion about how we might approach this situation differently. What other ideas do you have?",
  BotResponse.mk MsgType.text "That\x27s an intriguing point of view! It raises several questions about how we can analyze this further or find supporting evidence. Let\x27s think about potential solutions together.",
  BotResponse.mk MsgType.text "Your input is really valuable here. It makes me think about the broader implications of this topic and how it might impact other areas. Can you expand on this with specific examples?",
  BotResponse.mk MsgType.text "Thanks for sharing your thoughts! They offer a unique angle that might help us solve the problem or understand it better. What are the key challenges or opportunities you see here?",
  BotResponse.mk MsgType.image "https://picsum.photos/id/0/5000/3333",
  BotResponse.mk MsgType.image "https://picsum.photos/id/1/5000/3333",
  BotResponse.mk MsgType.image "https://picsum.photos/id/2/5000/3333",
  BotResponse.mk MsgType.image "https://picsum.photos/id/3/5000/3333",
  BotResponse.mk MsgType.image "https://picsum.photos/id/4/5000/3333",
  BotResponse.mk MsgType.image "https://picsum.photos/id/5/5000/3334",
  BotResponse.mk MsgType.image "https://picsum.photos/id/6/5000/3333",
  BotResponse.mk MsgType.image "https://picsum.photos/id/7/4728/3168",
  BotResponse.mk MsgType.image "https://picsum.photos/id/8/5000/3333",
  BotResponse.mk MsgType.image "https://picsum.photos/id/9/5000/3269",
  BotResponse.mk MsgType.image "https://picsum.photos/id/10/2500/1667",
  BotResponse.mk MsgType.image "https://picsum.photos/id/11/2500/1667",
  BotResponse.mk MsgType.image "https://picsum.photos/id/12/2500/1667",
  BotResponse.mk MsgType.image "https://picsum.photos/id/13/2500/1667",
  BotResponse.mk MsgType.image "https://picsum.photos/id/14/2500/1667",
  BotResponse.mk MsgType.image "https://picsum.photos/id/15/2500/1667",
  BotResponse.mk MsgType.image "https://picsum.photos/id/16/2500/1667",
  BotResponse.mk MsgType.image "https://picsum.photos/id/17/2500/1667",
  BotResponse.mk MsgType.image "https://picsum.photos/id/18/2500/1667",
  BotResponse.mk MsgType.image "https://picsum.photos/id/19/2500/1667",
  BotResponse.mk MsgType.image "https://picsum.photos/id/20/3670/2462",
  BotResponse.mk MsgType.audio "https://cdn.pixabay.com/audio/2024/04/03/audio_8afd3e404f.mp3",
  BotResponse.mk MsgType.audio "https://cdn.pixabay.com/audio/2024/04/03/audio_8afd3e404f.mp3",
  BotResponse.mk MsgType.audio "https://cdn.pixabay.com/audio/2024/09/15/audio_c5eb1a7203.mp3",
  BotResponse.mk MsgType.audio "https://cdn.pixabay.com/audio/2022/03/15/audio_58e98de349.mp3",
  BotResponse.mk MsgType.audio "https://cdn.pixabay.com/audio/2024/04/03/audio_8afd3e404f.mp3",
  BotResponse.mk MsgType.audio "https://cdn.pixabay.com/audio/2024/09/15/audio_c5eb1a7203.mp3",
  BotResponse.mk MsgType.audio "https://cdn.pixabay.com/audio/2022/03/15/audio_58e98de349.mp3",
  BotResponse.mk MsgType.audio "https://cdn.pixabay.com/audio/2022/03/10/audio_ace135b9fd.mp3",
  BotResponse.mk MsgType.audio "https://cdn.pixabay.com/audio/2022/03/10/audio_0726adf887.mp3",
  BotResponse.mk MsgType.audio "https://cdn.pixabay.com/audio/2023/05/17/audio_c6792c5e3c.mp3",
  BotResponse.mk MsgType.audio "https://cdn.pixabay.com/audio/2022/03/09/audio_d6c2276bcc.mp3",
  BotResponse.mk MsgType.audio "https://cdn.pixabay.com/audio/2022/03/24/audio_f34ad8292e.mp3",
  BotResponse.mk MsgType.audio "https://cdn.pixabay.com/audio/2022/03/15/audio_945134fe23.mp3",
  BotResponse.mk MsgType.audio "https://cdn.pixabay.com/audio/2022/02/07/audio_977ee73fb0.mp3",
  BotResponse.mk MsgType.audio "https://cdn.pixabay.com/audio/2022/03/15/audio_a208cf74dc.mp3",
  BotResponse.mk MsgType.audio "https://cdn.pixabay.com/audio/2023/09/08/audio_919f65fc08.mp3",
  BotResponse.mk MsgType.audio "https://cdn.pixabay.com/audio/2024/06/04/audio_7fffc238ac.mp3",
  BotResponse.mk MsgType.audio "https://cdn.pixabay.com/audio/2022/03/09/audio_fffa93f048.mp3",
  BotResponse.mk MsgType.audio "https://cdn.pixabay.com/audio/2021/08/09/audio_2f331550f9.mp3",
  BotResponse.mk MsgType.audio "https://cdn.pixabay.com/audio/2023/03/14/audio_7763cd5c8a.mp3",
  BotResponse.mk MsgType.audio "https://cdn.pixabay.com/audio/2022/03/09/audio_7735ee7ae1.mp3",
  BotResponse.mk MsgType.audio "https://cdn.pixabay.com/audio/2022/03/10/audio_61c3f72873.mp3",
  BotResponse.mk MsgType.audio "https://cdn.pixabay.com/audio/2022/03/15/audio_81383bc6cc.mp3",
  BotResponse.mk MsgType.audio "https://cdn.pixabay.com/audio/2022/03/24/audio_149bf7e8e8.mp3"
]

/-- The per-message randomness and environment inputs consumed by one
iteration of the bot's response loop: the `random.choice` index into the
catalog, the generated message id, the `utcnow` timestamp of the send, and
the `random.randint(2, 4)` sleep executed after the send. -/
structure BotSend where
  pick : Nat
  msg_id : MsgId
  now : Time
  postDelay : Nat
deriving DecidableEq, Repr

/-- The response loop of `_handle_bot_response_and_presence`: for each
iteration, pick a catalog entry, send it as the bot, then sleep. `pending`
is the delay accumulated since the previous published event; the trace
pairs each published event with the delay that preceded it, and the final
`pending` is the delay accumulated after the last send. -/
def botSendLoop (st : Store) (chat_id : ChatId) (sends : List BotSend)
    (pending : Nat) : Option (Store × List (Nat × Event) × Nat) :=
  match sends with
  | [] => some (st, [], pending)
  | c :: rest =>
    let resp := List.getD predefined_responses c.pick (BotResponse.mk MsgType.text "")
    match _send_message st chat_id BOT_USER_ID resp.type resp.content c.msg_id c.now with
    | none => none
    | some (st', ev, _) =>
      match botSendLoop st' chat_id rest c.postDelay with
      | none => none
      | some (st'', tr, pOut) => some (st'', (pending, ev) :: tr, pOut)

/-- `_handle_bot_response_and_presence`: sleep `[2,4]`, go online; sleep,
mark the chat read as the bot; sleep, start typing; send `N = randint(1,3)`
canned responses, sleeping `[2,4]` after each send; finally go offline.
`d1 d2 d3` are the three initial sleeps, `sends` the loop's randomness
(`sends.length = N`), `tOff` the `utcnow` of the final offline transition.
Returns the final store and the trace of published events, each paired with
the delay that preceded it. -/
def botActivation (st : Store) (chat_id : ChatId) (d1 d2 d3 : Nat)
    (sends : List BotSend) (tOff : Time) :
    Option (Store × List (Nat × Event)) :=
  match _update_presence st chat_id BOT_USER_ID PresStatus.online 0 with
  | none => none
  | some (st1, e1, _) =>
    match _mark_chat_read st1 chat_id (RRKey.user BOT_USER_ID) with
    | none => none
    | some (st2, _, e2, _) =>
      match _update_presence st2 chat_id BOT_USER_ID PresStatus.typing 0 with
      | none => none
      | some (st3, e3, _) =>
        match botSendLoop st3 chat_id sends 0 with
        | none => none
        | some (st4, msgTrace, pOut) =>
          match _update_presence st4 chat_id BOT_USER_ID PresStatus.offline tOff with
          | none => none
          | some (st5, e5, _) =>
            some (st5, [(d1, e1), (d2, e2), (d3, e3)] ++ msgTrace ++ [(pOut, e5)])

/-- The shape of an event, used to state trace-ordering properties. -/
inductive EvKind
  | msg
  | pres (s : PresStatus)
  | read
deriving DecidableEq, Repr

def eventKind : Event → EvKind
  | .message_received _ => .msg
  | .presence_updated _ s _ => .pres s
  | .chat_read _ => .read

/-- Run a sequence of successful `_send_message` calls against one chat
(each call supplies its generated id and `utcnow` time); a call on a
missing chat — which raises in the source — leaves the state unchanged. -/
def runSends (st : Store) (chat_id : ChatId)
    (cs : List (UserId × MsgType × String × MsgId × Time)) : Store :=
  match cs with
  | [] => st
  | c :: rest =>
    match _send_message st chat_id c.1 c.2.1 c.2.2.1 c.2.2.2.1 c.2.2.2.2 with
    | some (s', _, _) => runSends s' chat_id rest
    | none => runSends st chat_id rest

/-- The message record `_send_message` builds for one `runSends` entry. -/
def mkMessage (c : UserId × MsgType × String × MsgId × Time) : Message :=
  { id := c.2.2.2.1, user_id := c.1, type := c.2.1
    content := c.2.2.1, timestamp := c.2.2.2.2 }

/-- A sequence of `broadcast_to_chat` calls for one chat, collecting the
recipients of each publish. -/
def publishSeq (st : Store) (chat_id : ChatId) (es : List Event) :
    Store × List (List Conn) :=
  match es with
  | [] => (st, [])
  | e :: rest =>
    let r := broadcast_to_chat st chat_id e
    let rs := publishSeq r.1 chat_id rest
    (rs.1, r.2 :: rs.2)

/-! ### Lemmas about `Dict` operations -/

theorem dictGet_set_self {K V : Type} [DecidableEq K] (d : Dict K V) (k : K) (v : V) :
    dictGet (dictSet d k v) k = some v := by
  induction d with
  | nil => simp [dictSet, dictGet]
  | cons hd tl ih =>
    obtain ⟨k', v'⟩ := hd
    by_cases h : k' = k
    · subst h; simp [dictSet, dictGet]
    · simp [dictSet, dictGet, h, ih]

theorem dictGet_set_ne {K V : Type} [DecidableEq K] (d : Dict K V) (k j : K) (v : V)
    (h : j ≠ k) : dictGet (dictSet d k v) j = dictGet d j := by
  induction d with
  | nil => simp [dictSet, dictGet, Ne.symm h]
  | cons hd tl ih =>
    obtain ⟨k', v'⟩ := hd
    by_cases hk : k' = k
    · subst hk
      simp [dictSet, dictGet, Ne.symm h]
    · simp [dictSet, dictGet, hk, ih]

theorem dictKeys_set {K V : Type} [DecidableEq K] (d : Dict K V) (k : K) (v : V) :
    dictKeys (dictSet d k v) =
      if (dictGet d k).isSome then dictKeys d else dictKeys d ++ [k] := by
  induction d with
  | nil => simp [dictSet, dictGet, dictKeys]
  | cons hd tl ih =>
    obtain ⟨k', v'⟩ := hd
    by_cases hk : k' = k
    · subst hk; simp [dictSet, dictGet, dictKeys]
    · simp only [dictSet, dictGet, dictKeys, if_neg hk, List.map_cons]
      cases h : dictGet tl k with
      | none => simp [dictKeys, h] at ih; simp [ih]
      | some w => simp [dictKeys, h] at ih; simp [ih]

theorem dictSet_of_get_none {K V : Type} [DecidableEq K] (d : Dict K V) (k : K) (v : V)
    (h : dictGet d k = none) : dictSet d k v = d ++ [(k, v)] := by
  induction d with
  | nil => simp [dictSet]
  | cons hd tl ih =>
    obtain ⟨k', v'⟩ := hd
    by_cases hk : k' = k
    · subst hk; simp [dictGet] at h
    · simp only [dictGet, if_neg hk] at h
      simp [dictSet, hk, ih h]

theorem dictGet_append {K V : Type} [DecidableEq K] (d₁ d₂ : Dict K V) (k : K) :
    dictGet (d₁ ++ d₂) k =
      match dictGet d₁ k with
      | some v => some v
      | none => dictGet d₂ k := by
  induction d₁ with
  | nil => simp [dictGet]
  | cons hd tl ih =>
    obtain ⟨k', v'⟩ := hd
    by_cases hk : k' = k
    · subst hk; simp [dictGet]
    · simp [dictGet, hk, ih]

theorem dictComp_go {K V : Type} [DecidableEq K] (ks : List K) (f : K → V)
    (d : Dict K V) (hnd : ks.Nodup) (hfree : ∀ k ∈ ks, dictGet d k = none) :
    ks.foldl (fun d k => dictSet d k (f k)) d = d ++ ks.map (fun k => (k, f k)) := by
  induction ks generalizing d with
  | nil => simp
  | cons k ks ih =>
    simp only [List.foldl_cons]
    rw [dictSet_of_get_none d k (f k) (hfree k (by simp))]
    rw [ih (d ++ [(k, f k)]) hnd.of_cons]
    · simp
    · intro j hj
      rw [dictGet_append]
      rw [hfree j (by simp [hj])]
      have hjk : k ≠ j := fun hh => (List.nodup_cons.mp hnd).1 (hh ▸ hj)
      simp [dictGet, hjk]

theorem dictComp_eq_map {K V : Type} [DecidableEq K] (ks : List K) (f : K → V)
    (hnd : ks.Nodup) : dictComp ks f = ks.map (fun k => (k, f k)) := by
  unfold dictComp
  rw [dictComp_go ks f [] hnd (fun k _ => rfl)]
  simp

theorem dictGet_map_pair {K V : Type} [DecidableEq K] (ks : List K) (f : K → V)
    (k : K) :
    dictGet (ks.map (fun j => (j, f j))) k =
      if k ∈ ks then some (f k) else none := by
  induction ks with
  | nil => simp [dictGet]
  | cons a ks ih =>
    by_cases h : a = k
    · subst h; simp [dictGet]
    · simp [dictGet, h, ih, Ne.symm h]

/-! ### Lemmas about `broadcast_to_chat` -/

theorem foldl_erase_cons {α : Type} [DecidableEq α] (ts : List α) (x : α)
    (xs : List α) (h : ∀ y ∈ ts, y ≠ x) :
    ts.foldl (fun acc z => acc.erase z) (x :: xs) =
      x :: ts.foldl (fun acc z => acc.erase z) xs := by
  induction ts generalizing xs with
  | nil => simp
  | cons t ts ih =>
    simp only [List.foldl_cons]
    have hxt : x ≠ t := fun hh => h t (by simp) hh.symm
    rw [List.erase_cons_tail (by simpa using hxt)]
    exact ih _ (fun y hy => h y (by simp [hy]))

theorem foldl_erase_filter {α : Type} [DecidableEq α] (l : List α) (p : α → Bool) :
    (l.filter (fun a => !p a)).foldl (fun acc z => acc.erase z) l = l.filter p := by
  induction l with
  | nil => simp
  | cons x xs ih =>
    by_cases hp : p x
    · have hf : (x :: xs).filter (fun a => !p a) = xs.filter (fun a => !p a) := by
        simp [hp]
      have hne : ∀ y ∈ xs.filter (fun a => !p a), y ≠ x := by
        intro y hy hyx
        subst hyx
        simp [List.mem_filter] at hy
        exact absurd hp (by simp [hy.2])
      rw [hf, foldl_erase_cons _ x xs hne, ih, List.filter_cons_of_pos hp]
    · have hf : (x :: xs).filter (fun a => !p a) = x :: xs.filter (fun a => !p a) := by
        simp [hp]
      rw [hf]
      simp only [List.foldl_cons, List.erase_cons_head]
      rw [ih, List.filter_cons_of_neg (by simpa using hp)]

theorem broadcast_chats (st : Store) (cid : ChatId) (e : Event) :
    (broadcast_to_chat st cid e).1.chats = st.chats := by
  unfold broadcast_to_chat
  cases dictGet st.chat_connections cid <;> simp

theorem broadcast_to_chat_eq (st : Store) (cid : ChatId) (e : Event)
    (conns : List Conn) (h : dictGet st.chat_connections cid = some conns) :
    broadcast_to_chat st cid e =
      ({ st with chat_connections :=
          if (conns.filter (fun c => c.healthy)).isEmpty then
            dictErase st.chat_connections cid
          else dictSet st.chat_connections cid (conns.filter (fun c => c.healthy)) },
        conns.filter (fun c => c.healthy)) := by
  unfold broadcast_to_chat
  rw [h]
  simp only [foldl_erase_filter]

theorem broadcast_delivered_of_none (st : Store) (cid : ChatId) (e : Event)
    (h : dictGet st.chat_connections cid = none) :
    broadcast_to_chat st cid e = (st, []) := by
  unfold broadcast_to_chat
  rw [h]

/-! ### Characterizations of the internal operations -/

theorem _send_message_some (st : Store) (cid : ChatId) (u : UserId) (ty : MsgType)
    (ct : String) (mid : MsgId) (now : Time) (chat : Chat)
    (h : dictGet st.chats cid = some chat) :
    ∃ st' del,
      _send_message st cid u ty ct mid now =
        some (st', Event.message_received ⟨mid, u, ty, ct, now⟩, del) ∧
      st'.chats = dictSet st.chats cid
        { chat with messages := chat.messages ++ [⟨mid, u, ty, ct, now⟩] } := by
  unfold _send_message
  rw [h]
  exact ⟨_, _, rfl, by rw [broadcast_chats]⟩

theorem _update_presence_some_active (st : Store) (cid : ChatId) (u : UserId)
    (s : PresStatus) (now : Time) (chat : Chat) (old : PresenceRec)
    (h : dictGet st.chats cid = some chat) (hs : s ≠ PresStatus.offline)
    (hold : dictGet chat.presence u = some old) :
    ∃ st' del,
      _update_presence st cid u s now =
        some (st', Event.presence_updated u s old.last_seen, del) ∧
      st'.chats = dictSet st.chats cid
        { chat with presence := dictSet chat.presence u ⟨s, old.last_seen⟩ } := by
  unfold _update_presence
  rw [h]
  simp only [if_neg hs]
  rw [hold]
  exact ⟨_, _, rfl, by rw [broadcast_chats]⟩

theorem _update_presence_some_offline (st : Store) (cid : ChatId) (u : UserId)
    (now : Time) (chat : Chat) (h : dictGet st.chats cid = some chat) :
    ∃ st' del,
      _update_presence st cid u PresStatus.offline now =
        some (st', Event.presence_updated u PresStatus.offline now, del) ∧
      st'.chats = dictSet st.chats cid
        { chat with presence := dictSet chat.presence u ⟨PresStatus.offline, now⟩ } := by
  unfold _update_presence
  rw [h]
  simp only [if_pos rfl]
  exact ⟨_, _, rfl, by rw [broadcast_chats]⟩

theorem _mark_chat_read_some (st : Store) (cid : ChatId) (k : RRKey) (chat : Chat)
    (h : dictGet st.chats cid = some chat) :
    ∃ st' del,
      _mark_chat_read st cid k =
        some (st',
          ⟨cid, k, chat.messages.getLast?.map (fun m => m.id)⟩,
          Event.chat_read ⟨cid, k, chat.messages.getLast?.map (fun m => m.id)⟩,
          del) ∧
      st'.chats =
        dictSet st.chats cid
          { chat with
            read_receipts :=
              dictSet chat.read_receipts k
                (chat.messages.getLast?.map (fun m => m.id)) } := by
  unfold _mark_chat_read
  rw [h]
  exact ⟨_, _, rfl, by rw [broadcast_chats]⟩

theorem _update_presence_none (st : Store) (cid : ChatId) (u : UserId)
    (s : PresStatus) (now : Time) (h : dictGet st.chats cid = none) :
    _update_presence st cid u s now = none := by
  unfold _update_presence
  rw [h]

/-! ### Projection helpers and concrete states used by witnesses -/

/-- The read receipt stored for key `k` in a chat, if the chat exists. -/
def receiptOf (st : Store) (cid : ChatId) (k : RRKey) : Option (Option MsgId) :=
  match dictGet st.chats cid with
  | none => none
  | some chat => dictGet chat.read_receipts k

/-- The key list of a chat's `read_receipts` map, if the chat exists. -/
def receiptKeysOf (st : Store) (cid : ChatId) : Option (List RRKey) :=
  match dictGet st.chats cid with
  | none => none
  | some chat => some (dictKeys chat.read_receipts)

/-- The presence record stored for `u` in a chat, if the chat exists. -/
def presenceOf (st : Store) (cid : ChatId) (u : UserId) : Option PresenceRec :=
  match dictGet st.chats cid with
  | none => none
  | some chat => dictGet chat.presence u

/-- `c` is not among the subscribers of `cid`. -/
def notSub (st : Store) (cid : ChatId) (c : Conn) : Prop :=
  ∀ conns, dictGet st.chat_connections cid = some conns → c ∉ conns

/-- Store holding one chat `"c1"` created with participants `["alice"]`. -/
def stAlice : Store := (create_chat emptyStore "c1" 0 ⟨["alice"]⟩).1

/-- The chat record `create_chat` builds for `["alice"]` at time 0. -/
def chatAlice : Chat :=
  { participants := ["alice", BOT_USER_ID]
    messages := []
    read_receipts := [(RRKey.user "alice", none)]
    presence := [("alice", ⟨PresStatus.offline, 0⟩), (BOT_USER_ID, ⟨PresStatus.offline, 0⟩)] }

theorem stAlice_chat : dictGet stAlice.chats "c1" = some chatAlice := by rfl

/-- `stAlice` after alice sends one message with id 0 at time 1. -/
def stAliceMsg : Store :=
  match _send_message stAlice "c1" "alice" MsgType.text "hi" 0 1 with
  | some (st, _, _) => st
  | none => stAlice

/-! ### C2 -/

/-- C2 counterexample: `create_chat` called with an empty participant list,
and with a duplicated participant list, succeeds and creates the chat — it
does not fail with `ValidationError`. -/
theorem C2_counterexample :
    (dictGet (create_chat emptyStore "c1" 0 ⟨[]⟩).1.chats "c1").isSome = true ∧
    (create_chat emptyStore "c1" 0 ⟨[]⟩).2.2 = [] ∧
    (dictGet (create_chat emptyStore "c2" 0 ⟨["a", "a"]⟩).1.chats "c2").isSome = true := by
  exact ⟨rfl, rfl, rfl⟩

/-- C2 (amended): `create_chat` performs no validation of the participant
list: for every input, including an empty or duplicated list, it creates the
chat (with the bot appended) and returns success echoing the request's list.
-/
theorem C2_create_chat_never_fails (st : Store) (cid : ChatId) (now : Time)
    (req : CreateChatRequest) :
    dictGet (create_chat st cid now req).1.chats cid =
      some { participants := req.participants ++ [BOT_USER_ID]
             messages := []
             read_receipts := dictComp (req.participants.map RRKey.user) (fun _ => none)
             presence := dictComp (req.participants ++ [BOT_USER_ID])
               (fun _ => ⟨PresStatus.offline, now⟩) } ∧
    (create_chat st cid now req).2.2 = req.participants := by
  unfold create_chat
  exact ⟨dictGet_set_self st.chats cid _, rfl⟩

/-! ### C5 -/

/-- C5: for every valid human participant list P (nonempty, duplicate-free,
not containing the bot id), `create_chat` produces a chat whose participant
list is `P ++ [bot]`, whose read_receipts map has exactly the keys P with
every value "none", and whose presence map has exactly the keys `P ++ [bot]`
with every record offline; the response echoes only the human list P. -/
theorem C5_create_chat_shape (st : Store) (cid : ChatId) (now : Time)
    (req : CreateChatRequest) (_hne : req.participants ≠ [])
    (hnd : req.participants.Nodup) (hbot : BOT_USER_ID ∉ req.participants) :
    ∃ chat, dictGet (create_chat st cid now req).1.chats cid = some chat ∧
      chat.participants = req.participants ++ [BOT_USER_ID] ∧
      dictKeys chat.read_receipts = req.participants.map RRKey.user ∧
      (∀ p ∈ req.participants, dictGet chat.read_receipts (RRKey.user p) = some none) ∧
      dictKeys chat.presence = req.participants ++ [BOT_USER_ID] ∧
      (∀ p ∈ req.participants ++ [BOT_USER_ID],
        dictGet chat.presence p = some ⟨PresStatus.offline, now⟩) ∧
      (create_chat st cid now req).2.2 = req.participants := by
  have hmapnd : (req.participants.map RRKey.user).Nodup :=
    hnd.map (fun a b hab => by cases hab; rfl)
  have hpnd : (req.participants ++ [BOT_USER_ID]).Nodup := by
    simp [List.nodup_append, hnd, hbot]
  refine ⟨{ participants := req.participants ++ [BOT_USER_ID]
            messages := []
            read_receipts := dictComp (req.participants.map RRKey.user) (fun _ => none)
            presence := dictComp (req.participants ++ [BOT_USER_ID])
              (fun _ => ⟨PresStatus.offline, now⟩) },
    ?_, rfl, ?_, ?_, ?_, ?_, rfl⟩
  · unfold create_chat
    exact dictGet_set_self st.chats cid _
  · show dictKeys (dictComp (req.participants.map RRKey.user) (fun _ => none)) = _
    rw [dictComp_eq_map _ _ hmapnd]
    unfold dictKeys
    rw [List.map_map]
    simp [Function.comp_def]
  · intro p hp
    show dictGet (dictComp (req.participants.map RRKey.user) (fun _ => none)) _ = _
    rw [dictComp_eq_map _ _ hmapnd, dictGet_map_pair,
      if_pos (List.mem_map.mpr ⟨p, hp, rfl⟩)]
  · show dictKeys (dictComp (req.participants ++ [BOT_USER_ID]) _) = _
    rw [dictComp_eq_map _ _ hpnd]
    unfold dictKeys
    rw [List.map_map]
    simp [Function.comp_def]
  · intro p hp
    show dictGet (dictComp (req.participants ++ [BOT_USER_ID]) _) p = _
    rw [dictComp_eq_map _ _ hpnd, dictGet_map_pair, if_pos hp]

/-- Witness for C5 at the concrete input `["alice"]`. -/
theorem C5_create_chat_shape_witness :
    ∃ chat, dictGet (create_chat emptyStore "c1" 0 ⟨["alice"]⟩).1.chats "c1" = some chat ∧
      chat.participants = ["alice"] ++ [BOT_USER_ID] ∧
      dictKeys chat.read_receipts = ["alice"].map RRKey.user ∧
      (∀ p ∈ ["alice"], dictGet chat.read_receipts (RRKey.user p) = some none) ∧
      dictKeys chat.presence = ["alice"] ++ [BOT_USER_ID] ∧
      (∀ p ∈ ["alice"] ++ [BOT_USER_ID],
        dictGet chat.presence p = some ⟨PresStatus.offline, 0⟩) ∧
      (create_chat emptyStore "c1" 0 ⟨["alice"]⟩).2.2 = ["alice"] :=
  C5_create_chat_shape emptyStore "c1" 0 ⟨["alice"]⟩ (by decide) (by decide) (by decide)

/-! ### C4 -/

/-- C4: `send_message` on an unknown chat fails with not-found and on a
non-participant sender fails with forbidden; in both cases the whole store —
in particular the chat's message log — is returned unchanged and no bot
activation is scheduled (the scheduled flag is `false`). -/
theorem C4_send_message_failures (st : Store) (cid : ChatId)
    (req : SendMessageRequest) (mid : MsgId) (now : Time) :
    (dictGet st.chats cid = none →
      send_message st cid req mid now = (st, .error .notFound, false)) ∧
    (∀ chat, dictGet st.chats cid = some chat → req.user_id ∉ chat.participants →
      send_message st cid req mid now = (st, .error .forbidden, false)) := by
  constructor
  · intro h
    unfold send_message
    rw [h]
  · intro chat h hnp
    unfold send_message
    rw [h]
    simp [hnp]

/-- Witness for C4: a send to an unknown chat id, and a send by a
non-participant, both evaluated on the concrete store `stAlice`. -/
theorem C4_send_message_failures_witness :
    send_message stAlice "nochat" ⟨"alice", MsgType.text, "hi"⟩ 0 1 =
      (stAlice, .error .notFound, false) ∧
    send_message stAlice "c1" ⟨"mallory", MsgType.text, "hi"⟩ 0 1 =
      (stAlice, .error .forbidden, false) :=
  ⟨(C4_send_message_failures stAlice "nochat" ⟨"alice", MsgType.text, "hi"⟩ 0 1).1 rfl,
    (C4_send_message_failures stAlice "c1" ⟨"mallory", MsgType.text, "hi"⟩ 0 1).2
      chatAlice stAlice_chat (by decide)⟩

/-! ### C7 -/

/-- C7: for a stored presence record, a transition to a non-offline status
(online or typing) preserves the stored `last_seen`, and so does applying it
twice (typing then typing keeps the `last_seen` from before either call),
while a transition to offline overwrites `last_seen` with the call time. -/
theorem C7_presence_last_seen (st : Store) (cid : ChatId) (u : UserId)
    (s : PresStatus) (now now2 : Time) (chat : Chat) (old : PresenceRec)
    (h : dictGet st.chats cid = some chat)
    (hold : dictGet chat.presence u = some old) :
    (s ≠ PresStatus.offline →
      (∃ st1 ev1 del1, _update_presence st cid u s now = some (st1, ev1, del1) ∧
        presenceOf st1 cid u = some ⟨s, old.last_seen⟩ ∧
        ∃ st2 ev2 del2, _update_presence st1 cid u s now2 = some (st2, ev2, del2) ∧
          presenceOf st2 cid u = some ⟨s, old.last_seen⟩)) ∧
    (∃ st3 del3, _update_presence st cid u PresStatus.offline now =
        some (st3, Event.presence_updated u PresStatus.offline now, del3) ∧
      presenceOf st3 cid u = some ⟨PresStatus.offline, now⟩) := by
  constructor
  · intro hs
    obtain ⟨st1, del1, heq1, hchats1⟩ :=
      _update_presence_some_active st cid u s now chat old h hs hold
    have hchat1 : dictGet st1.chats cid =
        some { chat with presence := dictSet chat.presence u ⟨s, old.last_seen⟩ } := by
      rw [hchats1]; exact dictGet_set_self _ _ _
    have hold1 : dictGet (dictSet chat.presence u ⟨s, old.last_seen⟩) u =
        some ⟨s, old.last_seen⟩ := dictGet_set_self _ _ _
    obtain ⟨st2, del2, heq2, hchats2⟩ :=
      _update_presence_some_active st1 cid u s now2 _ ⟨s, old.last_seen⟩ hchat1 hs hold1
    refine ⟨st1, _, del1, heq1, ?_, st2, _, del2, heq2, ?_⟩
    · unfold presenceOf
      rw [hchat1]
      exact hold1
    · unfold presenceOf
      rw [hchats2, dictGet_set_self]
      exact dictGet_set_self _ _ _
  · obtain ⟨st3, del3, heq3, hchats3⟩ :=
      _update_presence_some_offline st cid u now chat h
    refine ⟨st3, del3, heq3, ?_⟩
    unfold presenceOf
    rw [hchats3, dictGet_set_self]
    exact dictGet_set_self _ _ _

/-- Witness for C7 on the concrete store `stAlice`, user alice, typing. -/
theorem C7_presence_last_seen_witness :
    (PresStatus.typing ≠ PresStatus.offline →
      (∃ st1 ev1 del1,
        _update_presence stAlice "c1" "alice" PresStatus.typing 5 = some (st1, ev1, del1) ∧
        presenceOf st1 "c1" "alice" = some ⟨PresStatus.typing, 0⟩ ∧
        ∃ st2 ev2 del2,
          _update_presence st1 "c1" "alice" PresStatus.typing 9 = some (st2, ev2, del2) ∧
          presenceOf st2 "c1" "alice" = some ⟨PresStatus.typing, 0⟩)) ∧
    (∃ st3 del3, _update_presence stAlice "c1" "alice" PresStatus.offline 5 =
        some (st3, Event.presence_updated "alice" PresStatus.offline 5, del3) ∧
      presenceOf st3 "c1" "alice" = some ⟨PresStatus.offline, 5⟩) :=
  C7_presence_last_seen stAlice "c1" "alice" PresStatus.typing 5 9 chatAlice
    ⟨PresStatus.offline, 0⟩ stAlice_chat rfl

/-! ### C10 -/

/-- C10: subscribing on the streaming channel never consults the chat store
(the chats component is untouched and no not-found check occurs), the
connection is appended to the chat id's subscriber list, and a subsequent
publish under that chat id is delivered to it — for every chat id, including
one for which no chat exists. -/
theorem C10_subscribe_no_check (st : Store) (cid : ChatId) (ws : Conn) (e : Event)
    (hws : ws.healthy = true) :
    (subscribe st cid ws).chats = st.chats ∧
    (∃ conns, dictGet (subscribe st cid ws).chat_connections cid = some conns ∧
      ws ∈ conns) ∧
    ws ∈ (broadcast_to_chat (subscribe st cid ws) cid e).2 := by
  have hget : dictGet (subscribe st cid ws).chat_connections cid =
      some ((match dictGet st.chat_connections cid with
             | none => []
             | some l => l) ++ [ws]) := by
    unfold subscribe
    exact dictGet_set_self _ _ _
  refine ⟨rfl, ⟨_, hget, by simp⟩, ?_⟩
  rw [broadcast_to_chat_eq _ cid e _ hget]
  simp [List.mem_filter, hws]

/-- Witness for C10: subscribing to chat id `"ghost"` on the empty store —
where no chat exists at all — and then publishing to `"ghost"`. -/
theorem C10_subscribe_no_check_witness :
    (subscribe emptyStore "ghost" ⟨7, true⟩).chats = emptyStore.chats ∧
    (∃ conns,
      dictGet (subscribe emptyStore "ghost" ⟨7, true⟩).chat_connections "ghost" =
        some conns ∧ (⟨7, true⟩ : Conn) ∈ conns) ∧
    (⟨7, true⟩ : Conn) ∈
      (broadcast_to_chat (subscribe emptyStore "ghost" ⟨7, true⟩) "ghost"
        (Event.presence_updated "alice" PresStatus.online 0)).2 :=
  C10_subscribe_no_check emptyStore "ghost" ⟨7, true⟩
    (Event.presence_updated "alice" PresStatus.online 0) rfl

/-! ### C1 -/

/-- C1: the REST route `mark_chat_read` passes the whole request object to
`_mark_chat_read` instead of `req.user_id`. Evaluated at the failing input —
chat `"c1"` with participant alice and one message with id 0, request
`{user_id: "alice"}` — the route stores the receipt under the request-object
key and echoes it in the `user_id` field, while alice's own receipt stays
"none": it is not set to the last message id as the claim requires. -/
theorem C1_mark_read_route_bug :
    (mark_chat_read stAliceMsg "c1" ⟨"alice"⟩).2 =
      .ok ⟨"c1", RRKey.reqObj ⟨"alice"⟩, some 0⟩ ∧
    receiptOf (mark_chat_read stAliceMsg "c1" ⟨"alice"⟩).1 "c1" (RRKey.user "alice") =
      some none ∧
    receiptOf (mark_chat_read stAliceMsg "c1" ⟨"alice"⟩).1 "c1"
      (RRKey.reqObj ⟨"alice"⟩) = some (some 0) :=
  ⟨rfl, rfl, rfl⟩

/-! ### C3 -/

/-- C3 counterexample: starting from a chat created with human participants
`["alice"]`, the bot activation's own mark-read step
(`_mark_chat_read(chat_id, BOT_USER_ID)`) adds the bot identifier as a
read_receipts key, so the key set no longer equals the human participants. -/
theorem C3_counterexample :
    ((_mark_chat_read stAlice "c1" (RRKey.user BOT_USER_ID)).map
        (fun r => receiptKeysOf r.1 "c1")) =
      some (some [RRKey.user "alice", RRKey.user BOT_USER_ID]) ∧
    [RRKey.user "alice", RRKey.user BOT_USER_ID] ≠ ["alice"].map RRKey.user :=
  ⟨rfl, by decide⟩

/-- C3 (amended): at creation the read_receipts key set is exactly the human
participants; a mark-read call for key `k` extends the key set with `k` when
absent (and leaves it unchanged when present), so the bot activation's
mark-read step adds the bot identifier as a key instead of preserving the
human-only key set. -/
theorem C3_receipt_keys (st : Store) (cid : ChatId) (now : Time)
    (req : CreateChatRequest) (k : RRKey) (chat : Chat)
    (hnd : req.participants.Nodup)
    (h : dictGet st.chats cid = some chat) :
    receiptKeysOf (create_chat st cid now req).1 cid =
      some (req.participants.map RRKey.user) ∧
    (∃ st' resp ev del, _mark_chat_read st cid k = some (st', resp, ev, del) ∧
      receiptKeysOf st' cid =
        some (if (dictGet chat.read_receipts k).isSome then dictKeys chat.read_receipts
              else dictKeys chat.read_receipts ++ [k])) := by
  constructor
  · have hmapnd : (req.participants.map RRKey.user).Nodup :=
      hnd.map (fun a b hab => by cases hab; rfl)
    unfold receiptKeysOf create_chat
    rw [dictGet_set_self]
    rw [dictComp_eq_map _ _ hmapnd]
    unfold dictKeys
    rw [List.map_map]
    simp [Function.comp_def]
  · obtain ⟨st', del, heq, hchats⟩ := _mark_chat_read_some st cid k chat h
    refine ⟨st', _, _, del, heq, ?_⟩
    unfold receiptKeysOf
    rw [hchats, dictGet_set_self]
    exact congrArg some (dictKeys_set chat.read_receipts k _)

/-- Witness for C3 (amended) on the concrete store `stAlice` with the bot's
mark-read key. -/
theorem C3_receipt_keys_witness :
    receiptKeysOf (create_chat stAlice "c1" 0 ⟨["alice"]⟩).1 "c1" =
      some (["alice"].map RRKey.user) ∧
    (∃ st' resp ev del,
      _mark_chat_read stAlice "c1" (RRKey.user BOT_USER_ID) =
        some (st', resp, ev, del) ∧
      receiptKeysOf st' "c1" =
        some (if (dictGet chatAlice.read_receipts (RRKey.user BOT_USER_ID)).isSome
              then dictKeys chatAlice.read_receipts
              else dictKeys chatAlice.read_receipts ++ [RRKey.user BOT_USER_ID])) :=
  C3_receipt_keys stAlice "c1" 0 ⟨["alice"]⟩ (RRKey.user BOT_USER_ID) chatAlice
    (by decide) stAlice_chat

/-! ### C8: pruning of failed subscribers -/

theorem dictGet_none_of_not_mem {K V : Type} [DecidableEq K] (d : Dict K V) (k : K)
    (h : k ∉ dictKeys d) : dictGet d k = none := by
  induction d with
  | nil => rfl
  | cons hd tl ih =>
    obtain ⟨k', v'⟩ := hd
    simp only [dictKeys, List.map_cons, List.mem_cons] at h
    push_neg at h
    simp [dictGet, Ne.symm h.1, ih h.2]

theorem dictGet_isSome_of_mem {K V : Type} [DecidableEq K] (d : Dict K V) (k : K)
    (h : k ∈ dictKeys d) : (dictGet d k).isSome := by
  induction d with
  | nil => simp [dictKeys] at h
  | cons hd tl ih =>
    obtain ⟨k', v'⟩ := hd
    by_cases hk : k' = k
    · simp [dictGet, hk]
    · simp only [dictKeys, List.map_cons, List.mem_cons] at h
      rcases h with h | h
      · exact absurd h.symm hk
      · simp [dictGet, hk, ih h]

theorem dictGet_erase_self {K V : Type} [DecidableEq K] (d : Dict K V) (k : K)
    (hnd : (dictKeys d).Nodup) : dictGet (dictErase d k) k = none := by
  induction d with
  | nil => rfl
  | cons hd tl ih =>
    obtain ⟨k', v'⟩ := hd
    simp only [dictKeys, List.map_cons, List.nodup_cons] at hnd
    by_cases hk : k' = k
    · subst hk
      simp only [dictErase, if_pos rfl]
      exact dictGet_none_of_not_mem tl k' hnd.1
    · simp [dictErase, hk, dictGet, ih hnd.2]

theorem dictKeys_erase_sublist {K V : Type} [DecidableEq K] (d : Dict K V) (k : K) :
    List.Sublist (dictKeys (dictErase d k)) (dictKeys d) := by
  induction d with
  | nil => simp [dictErase, dictKeys]
  | cons hd tl ih =>
    obtain ⟨k', v'⟩ := hd
    by_cases hk : k' = k
    · subst hk
      simp only [dictErase, if_pos rfl]
      exact List.Sublist.cons _ (List.Sublist.refl _)
    · simp only [dictErase, if_neg hk, dictKeys, List.map_cons]
      exact List.Sublist.cons₂ _ ih

theorem dictKeys_erase_nodup {K V : Type} [DecidableEq K] (d : Dict K V) (k : K)
    (hnd : (dictKeys d).Nodup) : (dictKeys (dictErase d k)).Nodup :=
  (dictKeys_erase_sublist d k).nodup hnd

theorem dictKeys_set_nodup {K V : Type} [DecidableEq K] (d : Dict K V) (k : K) (v : V)
    (hnd : (dictKeys d).Nodup) : (dictKeys (dictSet d k v)).Nodup := by
  rw [dictKeys_set]
  by_cases h : (dictGet d k).isSome
  · simp [h, hnd]
  · simp only [h, if_false]
    have hk : k ∉ dictKeys d := fun hm => h (dictGet_isSome_of_mem d k hm)
    simp [List.nodup_append, hnd, hk]

theorem broadcast_preserves_notSub (st : Store) (cid : ChatId) (e : Event) (c : Conn)
    (hnd : (dictKeys st.chat_connections).Nodup) (h : notSub st cid c) :
    (dictKeys (broadcast_to_chat st cid e).1.chat_connections).Nodup ∧
    notSub (broadcast_to_chat st cid e).1 cid c ∧
    c ∉ (broadcast_to_chat st cid e).2 := by
  cases hc : dictGet st.chat_connections cid with
  | none =>
    rw [broadcast_delivered_of_none st cid e hc]
    exact ⟨hnd, h, by simp⟩
  | some conns =>
    have hcn := h conns hc
    rw [broadcast_to_chat_eq st cid e conns hc]
    have hcf : c ∉ conns.filter (fun x => x.healthy) :=
      fun hmem => hcn (List.mem_filter.mp hmem).1
    by_cases hemp : (conns.filter (fun x => x.healthy)).isEmpty
    · simp only [if_pos hemp]
      refine ⟨dictKeys_erase_nodup _ _ hnd, ?_, hcf⟩
      intro conns' hget
      have hget' : dictGet (dictErase st.chat_connections cid) cid = some conns' := hget
      rw [dictGet_erase_self _ _ hnd] at hget'
      cases hget'
    · simp only [if_neg hemp]
      refine ⟨dictKeys_set_nodup _ _ _ hnd, ?_, hcf⟩
      intro conns' hget
      have hget' : dictGet (dictSet st.chat_connections cid
          (conns.filter (fun x => x.healthy))) cid = some conns' := hget
      rw [dictGet_set_self] at hget'
      exact (Option.some.inj hget') ▸ hcf

theorem publishSeq_not_delivered (cid : ChatId) (c : Conn) (es : List Event) :
    ∀ st : Store, (dictKeys st.chat_connections).Nodup → notSub st cid c →
      ∀ d ∈ (publishSeq st cid es).2, c ∉ d := by
  induction es with
  | nil =>
    intro st _ _ d hd
    simp [publishSeq] at hd
  | cons e es ih =>
    intro st hnd h d hd
    obtain ⟨hnd', h', hdel⟩ := broadcast_preserves_notSub st cid e c hnd h
    unfold publishSeq at hd
    simp only [List.mem_cons] at hd
    rcases hd with hd | hd
    · subst hd; exact hdel
    · exact ih _ hnd' h' d hd

/-- C8: a publish delivers the event to exactly the healthy current
subscribers of the chat; every subscriber whose delivery fails is removed
from the subscriber set within that same call and is absent from all
subsequent publishes for that chat; `broadcast_to_chat` is total — delivery
failures are never surfaced to its caller. -/
theorem C8_broadcast_prunes (st : Store) (cid : ChatId) (e : Event)
    (conns : List Conn) (es : List Event)
    (hnd : (dictKeys st.chat_connections).Nodup)
    (h : dictGet st.chat_connections cid = some conns) :
    (broadcast_to_chat st cid e).2 = conns.filter (fun x => x.healthy) ∧
    (∀ x ∈ conns, x.healthy = true → x ∈ (broadcast_to_chat st cid e).2) ∧
    (∀ x ∈ conns, x.healthy = false →
      notSub (broadcast_to_chat st cid e).1 cid x ∧
      ∀ d ∈ (publishSeq (broadcast_to_chat st cid e).1 cid es).2, x ∉ d) := by
  have heq := broadcast_to_chat_eq st cid e conns h
  have hnd' : (dictKeys (broadcast_to_chat st cid e).1.chat_connections).Nodup := by
    rw [heq]
    by_cases hemp : (conns.filter (fun x => x.healthy)).isEmpty
    · simp only [if_pos hemp]
      exact dictKeys_erase_nodup _ _ hnd
    · simp only [if_neg hemp]
      exact dictKeys_set_nodup _ _ _ hnd
  refine ⟨by rw [heq], ?_, ?_⟩
  · intro x hx hxh
    rw [heq]
    simp [List.mem_filter, hx, hxh]
  · intro x hx hxh
    have hxf : x ∉ conns.filter (fun y => y.healthy) := by
      intro hm
      have hh := (List.mem_filter.mp hm).2
      rw [hxh] at hh
      cases hh
    have hns : notSub (broadcast_to_chat st cid e).1 cid x := by
      rw [heq]
      intro conns' hget
      by_cases hemp : (conns.filter (fun y => y.healthy)).isEmpty
      · simp only [if_pos hemp] at hget
        rw [dictGet_erase_self _ _ hnd] at hget
        cases hget
      · simp only [if_neg hemp] at hget
        rw [dictGet_set_self] at hget
        exact (Option.some.inj hget) ▸ hxf
    exact ⟨hns, publishSeq_not_delivered cid x es _ hnd' hns⟩

/-- Store with two subscribers of `"c1"`: connection 1 healthy, connection 2
broken. -/
def stSub : Store :=
  subscribe (subscribe stAlice "c1" ⟨1, true⟩) "c1" ⟨2, false⟩

/-- Witness for C8 on `stSub`: one healthy and one broken subscriber, one
publish followed by one more publish. -/
theorem C8_broadcast_prunes_witness :
    (broadcast_to_chat stSub "c1" (Event.presence_updated "alice" PresStatus.online 0)).2 =
      ([⟨1, true⟩, ⟨2, false⟩] : List Conn).filter (fun x => x.healthy) ∧
    (∀ x ∈ ([⟨1, true⟩, ⟨2, false⟩] : List Conn), x.healthy = true →
      x ∈ (broadcast_to_chat stSub "c1"
        (Event.presence_updated "alice" PresStatus.online 0)).2) ∧
    (∀ x ∈ ([⟨1, true⟩, ⟨2, false⟩] : List Conn), x.healthy = false →
      notSub (broadcast_to_chat stSub "c1"
        (Event.presence_updated "alice" PresStatus.online 0)).1 "c1" x ∧
      ∀ d ∈ (publishSeq (broadcast_to_chat stSub "c1"
          (Event.presence_updated "alice" PresStatus.online 0)).1 "c1"
          [Event.presence_updated "alice" PresStatus.offline 3]).2, x ∉ d) :=
  C8_broadcast_prunes stSub "c1" (Event.presence_updated "alice" PresStatus.online 0)
    [⟨1, true⟩, ⟨2, false⟩] [Event.presence_updated "alice" PresStatus.offline 3]
    (by decide) rfl

/-! ### C6: the message log -/

theorem runSends_messages (cid : ChatId)
    (cs : List (UserId × MsgType × String × MsgId × Time)) :
    ∀ (st : Store) (chat : Chat), dictGet st.chats cid = some chat →
      dictGet (runSends st cid cs).chats cid =
        some { chat with messages := chat.messages ++ cs.map mkMessage } := by
  induction cs with
  | nil =>
    intro st chat h
    simpa [runSends] using h
  | cons c cs ih =>
    intro st chat h
    obtain ⟨u, ty, ct, mid, tm⟩ := c
    obtain ⟨st', del, heq, hchats⟩ := _send_message_some st cid u ty ct mid tm chat h
    simp only [runSends]
    rw [heq]
    show dictGet (runSends st' cid cs).chats cid = _
    have hget' : dictGet st'.chats cid =
        some { chat with messages := chat.messages ++ [mkMessage (u, ty, ct, mid, tm)] } := by
      rw [hchats]
      exact dictGet_set_self _ _ _
    rw [ih st' _ hget']
    simp [List.append_assoc]

/-- C6: starting from an empty log, a sequence of successful message sends
(each supplying its freshly generated id and its `utcnow` timestamp) yields
exactly those messages in call order from `get_messages`; under the clock's
monotonicity the timestamps are non-decreasing and under the id generator's
freshness the message ids are pairwise distinct. -/
theorem C6_message_log (st : Store) (cid : ChatId) (chat : Chat)
    (cs : List (UserId × MsgType × String × MsgId × Time))
    (h : dictGet st.chats cid = some chat) (h0 : chat.messages = [])
    (hts : (cs.map (fun c => c.2.2.2.2)).Pairwise (· ≤ ·))
    (hids : (cs.map (fun c => c.2.2.2.1)).Nodup) :
    get_messages (runSends st cid cs) cid = .ok (cs.map mkMessage) ∧
    ((cs.map mkMessage).map (fun m => m.timestamp)).Pairwise (· ≤ ·) ∧
    ((cs.map mkMessage).map (fun m => m.id)).Nodup := by
  have hrun := runSends_messages cid cs st chat h
  refine ⟨?_, ?_, ?_⟩
  · unfold get_messages
    rw [hrun]
    simp [h0]
  · rw [List.map_map]
    simpa [Function.comp_def, mkMessage] using hts
  · rw [List.map_map]
    simpa [Function.comp_def, mkMessage] using hids

/-- Witness for C6: alice sends two messages (ids 0, 1 at times 1, 2) in the
concrete chat `"c1"`. -/
theorem C6_message_log_witness :
    get_messages
        (runSends stAlice "c1"
          [("alice", MsgType.text, "hi", 0, 1), ("alice", MsgType.text, "yo", 1, 2)])
        "c1" =
      .ok ([("alice", MsgType.text, "hi", 0, 1),
            ("alice", MsgType.text, "yo", 1, 2)].map mkMessage) ∧
    (([("alice", MsgType.text, "hi", 0, 1),
       ("alice", MsgType.text, "yo", 1, 2)].map mkMessage).map
        (fun m => m.timestamp)).Pairwise (· ≤ ·) ∧
    (([("alice", MsgType.text, "hi", 0, 1),
       ("alice", MsgType.text, "yo", 1, 2)].map mkMessage).map
        (fun m => m.id)).Nodup :=
  C6_message_log stAlice "c1" chatAlice
    [("alice", MsgType.text, "hi", 0, 1), ("alice", MsgType.text, "yo", 1, 2)]
    stAlice_chat rfl (by decide) (by decide)

/-! ### C9: the bot activation's published trace -/

theorem getD_mem_of_lt {α : Type} (l : List α) (n : Nat) (d : α) (h : n < l.length) :
    l.getD n d ∈ l := by
  rw [List.getD_eq_getElem l d h]
  exact List.getElem_mem h

theorem botSendLoop_spec (cid : ChatId) (sends : List BotSend) :
    ∀ (st : Store) (pending : Nat) (chat : Chat),
      dictGet st.chats cid = some chat →
      (∀ c ∈ sends, c.pick < predefined_responses.length) →
      ∃ st' tr pOut chat',
        botSendLoop st cid sends pending = some (st', tr, pOut) ∧
        dictGet st'.chats cid = some chat' ∧
        tr.map Prod.fst ++ [pOut] = pending :: sends.map (fun c => c.postDelay) ∧
        tr.map (fun q => eventKind q.2) = List.replicate sends.length EvKind.msg ∧
        (∀ m, Event.message_received m ∈ tr.map Prod.snd →
          BotResponse.mk m.type m.content ∈ predefined_responses) := by
  induction sends with
  | nil =>
    intro st pending chat h _
    exact ⟨st, [], pending, chat, rfl, h, rfl, rfl, by simp⟩
  | cons c cs ih =>
    intro st pending chat h hp
    obtain ⟨st', del, heq, hchats⟩ :=
      _send_message_some st cid BOT_USER_ID
        (List.getD predefined_responses c.pick (BotResponse.mk MsgType.text "")).type
        (List.getD predefined_responses c.pick (BotResponse.mk MsgType.text "")).content
        c.msg_id c.now chat h
    have hget' : dictGet st'.chats cid = some
        { chat with messages := chat.messages ++
            [⟨c.msg_id, BOT_USER_ID,
              (List.getD predefined_responses c.pick (BotResponse.mk MsgType.text "")).type,
              (List.getD predefined_responses c.pick (BotResponse.mk MsgType.text "")).content,
              c.now⟩] } := by
      rw [hchats]
      exact dictGet_set_self _ _ _
    obtain ⟨st'', tr, pOut, chat', hloop, hchat', hdelays, hkinds, hmem⟩ :=
      ih st' c.postDelay _ hget' (fun x hx => hp x (by simp [hx]))
    refine ⟨st'',
      (pending, Event.message_received
        ⟨c.msg_id, BOT_USER_ID,
          (List.getD predefined_responses c.pick (BotResponse.mk MsgType.text "")).type,
          (List.getD predefined_responses c.pick (BotResponse.mk MsgType.text "")).content,
          c.now⟩) :: tr,
      pOut, chat', ?_, hchat', ?_, ?_, ?_⟩
    · simp only [botSendLoop, heq, hloop]
    · rw [List.map_cons, List.cons_append, hdelays, List.map_cons]
    · rw [List.map_cons, hkinds, List.length_cons, List.replicate_succ]
      rfl
    · intro m hm
      rw [List.map_cons, List.mem_cons] at hm
      rcases hm with hm | hm
      · have hme := (Event.message_received.inj hm)
        subst hme
        exact getD_mem_of_lt _ _ _ (hp c (by simp))
      · exact hmem m hm

/-- C9 counterexample: a concrete activation in chat `"c1"` in which every
`randint(2, 4)` draw returns 2 (within the allowed window) and N = 1. The
trace of (delay-before-event, event-shape) pairs shows the single
`message_received` is published with delay 0 after `presence_updated(typing)`
— there is no wait in `[2,4]` before the send; the `[2,4]` wait comes after
each send instead. -/
theorem C9_counterexample :
    (botActivation stAlice "c1" 2 2 2 [⟨0, 0, 5, 2⟩] 7).map
        (fun r => r.2.map (fun q => (q.1, eventKind q.2))) =
      some [(2, EvKind.pres PresStatus.online), (2, EvKind.read),
            (2, EvKind.pres PresStatus.typing), (0, EvKind.msg),
            (2, EvKind.pres PresStatus.offline)] ∧
    ¬ (2 ≤ 0) :=
  ⟨rfl, by decide⟩

/-- C9 (amended): every bot activation publishes, in order,
`presence_updated(online)`, `chat_read`, `presence_updated(typing)`, then
`N ∈ {1,2,3}` `message_received` events whose messages are drawn from the
fixed catalog, then `presence_updated(offline)`; the three initial waits are
the `[2,4]` draws, the first message is sent immediately after the typing
event (delay 0), and a `[2,4]` draw follows each send — the last of them
preceding the offline event. -/
theorem C9_bot_activation_trace (st : Store) (cid : ChatId) (d1 d2 d3 : Nat)
    (sends : List BotSend) (tOff : Time) (chat : Chat) (rec0 : PresenceRec)
    (h : dictGet st.chats cid = some chat)
    (hrec : dictGet chat.presence BOT_USER_ID = some rec0)
    (_hd1 : 2 ≤ d1 ∧ d1 ≤ 4) (_hd2 : 2 ≤ d2 ∧ d2 ≤ 4) (_hd3 : 2 ≤ d3 ∧ d3 ≤ 4)
    (_hn : 1 ≤ sends.length ∧ sends.length ≤ 3)
    (_hpd : ∀ c ∈ sends, 2 ≤ c.postDelay ∧ c.postDelay ≤ 4)
    (hpick : ∀ c ∈ sends, c.pick < predefined_responses.length) :
    ∃ st' tr, botActivation st cid d1 d2 d3 sends tOff = some (st', tr) ∧
      tr.map Prod.fst = [d1, d2, d3] ++ 0 :: sends.map (fun c => c.postDelay) ∧
      tr.map (fun q => eventKind q.2) =
        [EvKind.pres PresStatus.online, EvKind.read, EvKind.pres PresStatus.typing] ++
          (List.replicate sends.length EvKind.msg ++ [EvKind.pres PresStatus.offline]) ∧
      (∀ m, Event.message_received m ∈ tr.map Prod.snd →
        BotResponse.mk m.type m.content ∈ predefined_responses) := by
  obtain ⟨st1, del1, heq1, hchats1⟩ :=
    _update_presence_some_active st cid BOT_USER_ID PresStatus.online 0 chat rec0 h
      (by decide) hrec
  have hget1 : dictGet st1.chats cid = some
      { chat with
        presence :=
          dictSet chat.presence BOT_USER_ID ⟨PresStatus.online, rec0.last_seen⟩ } := by
    rw [hchats1]
    exact dictGet_set_self _ _ _
  obtain ⟨st2, del2, heq2, hchats2⟩ :=
    _mark_chat_read_some st1 cid (RRKey.user BOT_USER_ID) _ hget1
  have hget2 : dictGet st2.chats cid = some
      { chat with
        presence :=
          dictSet chat.presence BOT_USER_ID ⟨PresStatus.online, rec0.last_seen⟩
        read_receipts :=
          dictSet chat.read_receipts (RRKey.user BOT_USER_ID)
            (chat.messages.getLast?.map (fun m => m.id)) } := by
    rw [hchats2]
    exact dictGet_set_self _ _ _
  have hpres2 : dictGet
      (dictSet chat.presence BOT_USER_ID ⟨PresStatus.online, rec0.last_seen⟩)
      BOT_USER_ID = some ⟨PresStatus.online, rec0.last_seen⟩ :=
    dictGet_set_self _ _ _
  obtain ⟨st3, del3, heq3, hchats3⟩ :=
    _update_presence_some_active st2 cid BOT_USER_ID PresStatus.typing 0 _
      ⟨PresStatus.online, rec0.last_seen⟩ hget2 (by decide) hpres2
  have hget3 : (dictGet st3.chats cid).isSome := by
    rw [hchats3, dictGet_set_self]
    rfl
  obtain ⟨chat3, hchat3⟩ := Option.isSome_iff_exists.mp hget3
  obtain ⟨st4, tr, pOut, chat4, hloop, hchat4, hdelays, hkinds, hmem⟩ :=
    botSendLoop_spec cid sends st3 0 chat3 hchat3 hpick
  obtain ⟨st5, del5, heq5, hchats5⟩ :=
    _update_presence_some_offline st4 cid BOT_USER_ID tOff chat4 hchat4
  refine ⟨st5,
    [(d1, Event.presence_updated BOT_USER_ID PresStatus.online rec0.last_seen),
     (d2, Event.chat_read
        ⟨cid, RRKey.user BOT_USER_ID, chat.messages.getLast?.map (fun m => m.id)⟩),
     (d3, Event.presence_updated BOT_USER_ID PresStatus.typing rec0.last_seen)] ++
      tr ++ [(pOut, Event.presence_updated BOT_USER_ID PresStatus.offline tOff)],
    ?_, ?_, ?_, ?_⟩
  · simp only [botActivation, heq1, heq2, heq3, hloop, heq5]
  · simp only [List.map_append, List.map_cons, List.map_nil, List.append_assoc,
      List.nil_append]
    rw [hdelays]
  · simp only [List.map_append, List.map_cons, List.map_nil, List.append_assoc,
      List.nil_append]
    rw [hkinds]
    rfl
  · intro m hm
    simp only [List.map_append, List.map_cons, List.map_nil, List.mem_append,
      List.mem_cons, List.not_mem_nil, or_false] at hm
    rcases hm with ((hm | hm | hm) | hm) | hm
    · cases hm
    · cases hm
    · cases hm
    · exact hmem m hm
    · cases hm

/-- Witness for C9 (amended) at the concrete activation used by the
counterexample. -/
theorem C9_bot_activation_trace_witness :
    ∃ st' tr, botActivation stAlice "c1" 2 2 2 [⟨0, 0, 5, 2⟩] 7 = some (st', tr) ∧
      tr.map Prod.fst =
        [2, 2, 2] ++ 0 :: ([⟨0, 0, 5, 2⟩] : List BotSend).map (fun c => c.postDelay) ∧
      tr.map (fun q => eventKind q.2) =
        [EvKind.pres PresStatus.online, EvKind.read, EvKind.pres PresStatus.typing] ++
          (List.replicate ([⟨0, 0, 5, 2⟩] : List BotSend).length EvKind.msg ++
            [EvKind.pres PresStatus.offline]) ∧
      (∀ m, Event.message_received m ∈ tr.map Prod.snd →
        BotResponse.mk m.type m.content ∈ predefined_responses) :=
  C9_bot_activation_trace stAlice "c1" 2 2 2 [⟨0, 0, 5, 2⟩] 7 chatAlice
    ⟨PresStatus.offline, 0⟩ stAlice_chat rfl (by decide) (by decide) (by decide)
    (by decide) (by decide) (by decide)
